import Mathlib

/-!
# Verification of the ClapSwitch firmware core (src/ClapSwitch/main.c)

Shallow embedding of the clap-activated lamp firmware: the double-clap
pattern matcher over the circular level buffer, the microphone read
pipeline with its lockout, the configuration update/persistence policy,
the HSL-style color computation and the LED frame encoder.  Machine
integers are modelled as `Nat` (or `Int` for signed quantities) with an
explicit `% 2^w` wherever the C code can wrap.
-/

namespace ClapSwitch

/-- Audio classification of one ~16 ms window (enum `AudioLevel` in main.c). -/
inductive AudioLevel where
  | QUIET
  | MID
  | LOUD
deriving DecidableEq, BEq, Repr

export AudioLevel (QUIET MID LOUD)

/-- `LEVEL_BUFFER_LEN` in main.c. -/
def LEVEL_BUFFER_LEN : Nat := 128

/-- `bufferIndexSubtract` from main.c: move an index backward by `amount`,
wrapping around the 128-entry circular buffer. -/
def bufferIndexSubtract (index amount : Nat) : Nat :=
  if amount > index then LEVEL_BUFFER_LEN - (amount - index) else index - amount

/-- `bufferIndexAdd` from main.c: move an index forward by `amount`,
wrapping around the 128-entry circular buffer. -/
def bufferIndexAdd (index amount : Nat) : Nat :=
  let result := index + amount
  if result ≥ LEVEL_BUFFER_LEN then result - LEVEL_BUFFER_LEN else result

/-- Read one slot of the level buffer (array access `level_buffer[i]`).
The buffer is modelled as a list of length 128; out-of-range reads (which
never occur for in-range indices) default to `QUIET`. -/
def bufGet (buf : List AudioLevel) (i : Nat) : AudioLevel :=
  buf.getD i QUIET

/-- The acceptance test of one entry inside `checkPrior`:
`(level == QUIET && quiet_allowed) || (level == MID && mid_allowed) || (level == LOUD && loud_allowed)`. -/
def levelOk (level : AudioLevel) (q m l : Bool) : Bool :=
  (level == QUIET && q) || (level == MID && m) || (level == LOUD && l)

/-- The `while` loop of `checkPrior` from main.c.  The C loop runs with
`end = bufferIndexSubtract(*i, max_allowed)` and stops as soon as `*i == end`
or the current entry is not allowed; since every call site has
`max_allowed < 128`, the pointer `*i` (decremented by one slot per accepted
entry) can only reach `end` after exactly `max_allowed` accepted entries, so
the loop is structural recursion on the remaining allowance.  Returns the
number of accepted entries together with the final index. -/
def checkPriorLoop (buf : List AudioLevel) (q m l : Bool) : Nat → Nat → Nat × Nat
  | 0, i => (0, i)
  | remaining + 1, i =>
    if levelOk (bufGet buf i) q m l then
      let r := checkPriorLoop buf q m l remaining (bufferIndexSubtract i 1)
      (r.1 + 1, r.2)
    else
      (0, i)

/-- `checkPrior` from main.c: walk backward from `i` over at most
`max_allowed` entries drawn from the allowed levels; succeed when at least
`min_required` entries were accepted.  Returns the success flag and the
final index (the C function updates `*i` in place). -/
def checkPrior (buf : List AudioLevel) (i min_required max_allowed : Nat)
    (q m l : Bool) : Bool × Nat :=
  let r := checkPriorLoop buf q m l max_allowed i
  (decide (min_required ≤ r.1), r.2)

/-- The `CHECK_STARTED_LOUD` test of `analyzeBuffer`:
after a burst run left the index at `i`, require
`level_buffer[bufferIndexAdd(i,1)] == LOUD || level_buffer[bufferIndexAdd(i,2)] == LOUD`. -/
def checkStartedLoud (buf : List AudioLevel) (i : Nat) : Bool :=
  bufGet buf (bufferIndexAdd i 1) == LOUD || bufGet buf (bufferIndexAdd i 2) == LOUD

/-! `analyzeBuffer` from main.c walks the level buffer backward from the
newest entry through a fixed sequence of `CHECK`/`CHECK_STARTED_LOUD`
macro expansions, each `CHECK` calling `checkPrior` once (reading both its
success flag and the updated index from that one call) and returning
`false` as soon as a check fails.  We render each macro expansion as one
stage function; `analyzeStageN` is the remainder of `analyzeBuffer` from
the N-th check on, with `i` the current buffer index. -/

/-- `CHECK(32, 32, 1, 0, 0)` — must have had quiet beforehand. -/
def analyzeStage13 (buf : List AudioLevel) (i : Nat) : Bool :=
  (checkPrior buf i 32 32 true false false).1

/-- Second `CHECK_STARTED_LOUD`. -/
def analyzeStage12 (buf : List AudioLevel) (i : Nat) : Bool :=
  if checkStartedLoud buf i then analyzeStage13 buf i else false

/-- `CHECK(0, 9, 0, 1, 1)` — second clap burst of mids and louds. -/
def analyzeStage11 (buf : List AudioLevel) (i : Nat) : Bool :=
  if (checkPrior buf i 0 9 false true true).1 then
    analyzeStage12 buf (checkPrior buf i 0 9 false true true).2
  else false

/-- `CHECK(1, 1, 0, 0, 1)` — at least one LOUD (second clap). -/
def analyzeStage10 (buf : List AudioLevel) (i : Nat) : Bool :=
  if (checkPrior buf i 1 1 false false true).1 then
    analyzeStage11 buf (checkPrior buf i 1 1 false false true).2
  else false

/-- `CHECK(0, 5, 1, 1, 0)` — second ramp down MID/QUIET. -/
def analyzeStage9 (buf : List AudioLevel) (i : Nat) : Bool :=
  if (checkPrior buf i 0 5 true true false).1 then
    analyzeStage10 buf (checkPrior buf i 0 5 true true false).2
  else false

/-- `CHECK(0, 1, 0, 1, 0)` — second ramp down MID. -/
def analyzeStage8 (buf : List AudioLevel) (i : Nat) : Bool :=
  if (checkPrior buf i 0 1 false true false).1 then
    analyzeStage9 buf (checkPrior buf i 0 1 false true false).2
  else false

/-- `CHECK(2, 50, 1, 0, 0)` — inter-clap quiet. -/
def analyzeStage7 (buf : List AudioLevel) (i : Nat) : Bool :=
  if (checkPrior buf i 2 50 true false false).1 then
    analyzeStage8 buf (checkPrior buf i 2 50 true false false).2
  else false

/-- First `CHECK_STARTED_LOUD`. -/
def analyzeStage6 (buf : List AudioLevel) (i : Nat) : Bool :=
  if checkStartedLoud buf i then analyzeStage7 buf i else false

/-- `CHECK(0, 9, 0, 1, 1)` — first clap burst of mids and louds. -/
def analyzeStage5 (buf : List AudioLevel) (i : Nat) : Bool :=
  if (checkPrior buf i 0 9 false true true).1 then
    analyzeStage6 buf (checkPrior buf i 0 9 false true true).2
  else false

/-- `CHECK(1, 1, 0, 0, 1)` — at least one LOUD (first clap). -/
def analyzeStage4 (buf : List AudioLevel) (i : Nat) : Bool :=
  if (checkPrior buf i 1 1 false false true).1 then
    analyzeStage5 buf (checkPrior buf i 1 1 false false true).2
  else false

/-- `CHECK(0, 5, 1, 1, 0)` — first ramp down MID/QUIET. -/
def analyzeStage3 (buf : List AudioLevel) (i : Nat) : Bool :=
  if (checkPrior buf i 0 5 true true false).1 then
    analyzeStage4 buf (checkPrior buf i 0 5 true true false).2
  else false

/-- `CHECK(0, 1, 0, 1, 0)` — first ramp down MID. -/
def analyzeStage2 (buf : List AudioLevel) (i : Nat) : Bool :=
  if (checkPrior buf i 0 1 false true false).1 then
    analyzeStage3 buf (checkPrior buf i 0 1 false true false).2
  else false

/-- `analyzeBuffer` from main.c: return true if the buffer, walked
backward from newest entry `idx0` (`level_buffer_index`), matches the
double-clap pattern; `CHECK(8, 8, 1, 0, 0)` (ends with 8 quiet periods)
followed by the remaining stages. -/
def analyzeBuffer (buf : List AudioLevel) (idx0 : Nat) : Bool :=
  if (checkPrior buf idx0 8 8 true false false).1 then
    analyzeStage2 buf (checkPrior buf idx0 8 8 true false false).2
  else false

/-! ## The spec-side run matcher (from the words of the specification)

The spec describes the matcher as walking the level buffer backward from
the newest entry through a sequence of counted runs, each with a minimum
count, a maximum count and a set of acceptable levels, failing fast when a
run cannot reach its minimum within its maximum window.  We express this
over the backward view `g : Nat → AudioLevel` of the buffer, where `g k`
is the entry `k` steps behind the newest one (so `g 0` is the newest). -/

/-- Greedy counted run of the spec's matcher: the number of consecutive
entries drawn from the allowed set, scanning the backward view `g` from
position `pos`, capped at the run's maximum window `fuel`. -/
def runCount (g : Nat → AudioLevel) (q m l : Bool) : Nat → Nat → Nat
  | 0, _ => 0
  | fuel + 1, pos =>
    if levelOk (g pos) q m l then runCount g q m l fuel (pos + 1) + 1 else 0

/-- The claim's "started loud" constraint read literally: the 1st or 2nd
entry scanned in the burst run (the run scans backward, so these are the
entries at the run's starting position and the next older one) is LOUD. -/
def startedLoudFirstScanned (g : Nat → AudioLevel) (startPos _endPos : Nat) : Bool :=
  g startPos == LOUD || g (startPos + 1) == LOUD

/-- The "started loud" constraint as the code actually applies it: the
entry one or two positions newer than the run's final position is LOUD
(these are the last and second-to-last entries the run scanned; when the
run accepted fewer than two entries, the preceding lone LOUD entry stands
in those positions). -/
def startedLoudLastScanned (g : Nat → AudioLevel) (_startPos endPos : Nat) : Bool :=
  g (endPos - 1) == LOUD || g (endPos - 2) == LOUD

/-- One step of the spec's run sequence: either a counted run with a
minimum count, a maximum window and the set of acceptable levels, or the
started-loud side constraint on the run just matched. -/
inductive RunStep where
  | run (minRequired maxAllowed : Nat) (q m l : Bool)
  | startedLoud

/-- The run sequence of the specification, closest-to-present first:
trailing quiet (exactly 8, QUIET), optional ramp (0-1, MID), optional
ramp (0-5, QUIET|MID), one LOUD, clap burst (0-9, MID|LOUD) with the
started-loud constraint, inter-clap gap (2-50, QUIET), optional ramp
(0-1, MID), optional ramp (0-5, QUIET|MID), one LOUD, clap burst (0-9,
MID|LOUD) with the started-loud constraint, leading quiet (exactly 32,
QUIET). -/
def specSteps : List RunStep :=
  [RunStep.run 8 8 true false false,
   RunStep.run 0 1 false true false,
   RunStep.run 0 5 true true false,
   RunStep.run 1 1 false false true,
   RunStep.run 0 9 false true true,
   RunStep.startedLoud,
   RunStep.run 2 50 true false false,
   RunStep.run 0 1 false true false,
   RunStep.run 0 5 true true false,
   RunStep.run 1 1 false false true,
   RunStep.run 0 9 false true true,
   RunStep.startedLoud,
   RunStep.run 32 32 true false false]

/-- Execute the spec's run sequence over the backward view `g` from
position `pos`, greedily matching each counted run within its maximum
window and failing fast when a run misses its minimum; `lastStart`
remembers where the run just matched started scanning, for the
started-loud constraint `sl g lastStart pos`. -/
def specExec (sl : (Nat → AudioLevel) → Nat → Nat → Bool)
    (g : Nat → AudioLevel) : List RunStep → Nat → Nat → Bool
  | [], _, _ => true
  | RunStep.run minRequired maxAllowed q m l :: rest, pos, _ =>
    let c := runCount g q m l maxAllowed pos
    if decide (minRequired ≤ c) then specExec sl g rest (pos + c) pos else false
  | RunStep.startedLoud :: rest, pos, lastStart =>
    if sl g lastStart pos then specExec sl g rest pos lastStart else false

/-- The spec's matcher: run the sequence from the newest entry, with the
given reading of the started-loud constraint. -/
def specMatchWith (sl : (Nat → AudioLevel) → Nat → Nat → Bool)
    (g : Nat → AudioLevel) : Bool :=
  specExec sl g specSteps 0 0

/-- The claim's matcher, with "started loud" at the 1st/2nd scanned entry. -/
def specMatchClaim (g : Nat → AudioLevel) : Bool :=
  specMatchWith startedLoudFirstScanned g

/-- The amended matcher, with "started loud" at the last/second-to-last
scanned entry as the code checks it. -/
def specMatchAmended (g : Nat → AudioLevel) : Bool :=
  specMatchWith startedLoudLastScanned g

/-- The backward view of the circular buffer from newest entry `idx`:
`backView buf idx k` is the entry `k` steps behind the newest one.  Since
the buffer is circular with 128 slots, the view is periodic with period
128. -/
def backView (buf : List AudioLevel) (idx : Nat) : Nat → AudioLevel :=
  fun k => bufGet buf (bufferIndexSubtract idx (k % 128))

/-! ## The microphone read pipeline (micRead and its state) -/

/-- `2^32`: the modulus of the 32-bit tick counter and of `uint32_t`
arithmetic. -/
def UINT32_MOD : Nat := 4294967296

/-- `MID_READING` from main.c: the expected mid-level audio reading. -/
def MID_READING : Nat := 369

/-- `LOUD_THRESHOLD` from main.c. -/
def LOUD_THRESHOLD : Nat := 50000

/-- `QUIET_THRESHOLD` from main.c. -/
def QUIET_THRESHOLD : Nat := 20000

/-- `NUM_SAMPLES_PER_THRESHOLD` from main.c. -/
def NUM_SAMPLES_PER_THRESHOLD : Nat := 16

/-- `CLAP_LOCKOUT_MS` from main.c. -/
def CLAP_LOCKOUT_MS : Nat := 2000

/-- `calculateCurrentLevel` from main.c, with the accumulated
`audio_squares` passed explicitly. -/
def calculateCurrentLevel (audio_squares : Nat) : AudioLevel :=
  if audio_squares ≥ LOUD_THRESHOLD then LOUD
  else if audio_squares ≤ QUIET_THRESHOLD then QUIET
  else MID

/-- `addToBuffer` from main.c: increment `level_buffer_index` (a `uint8_t`,
hence `% 256`), wrap it at `LEVEL_BUFFER_LEN`, and overwrite that slot.
Returns the new index and buffer. -/
def addToBuffer (buf : List AudioLevel) (index : Nat) (level : AudioLevel) :
    Nat × List AudioLevel :=
  let index2 := (index + 1) % 256
  let index3 := if index2 ≥ LEVEL_BUFFER_LEN then 0 else index2
  (index3, buf.set index3 level)

/-- The first two lines of `micRead` in main.c:
`diff = (reading > MID_READING ? reading - MID_READING : MID_READING - reading) / 2`,
where `reading` is a `uint16_t` and the quotient is stored into an
`int8_t`, wrapping modulo 256 into the range -128..127. -/
def micDiff (reading : Nat) : Int :=
  let r := reading % 65536
  let d := (if r > MID_READING then r - MID_READING else MID_READING - r) / 2
  ((d : Int) + 128) % 256 - 128

/-- The lockout test of `micRead` in main.c:
`clap_lockout_millis > tick_millis`. -/
def lockoutActive (clap_lockout_millis tick_millis : Nat) : Bool :=
  decide (clap_lockout_millis > tick_millis)

/-- The mutable state read and written by `micRead`: the accumulated
sum of squares, the sample counter, the level buffer with its index, and
the lockout deadline. -/
structure MicState where
  audio_squares : Nat
  sample_count : Nat
  level_buffer : List AudioLevel
  level_buffer_index : Nat
  clap_lockout_millis : Nat
deriving DecidableEq, Repr

/-- `micRead` from main.c: accumulate `diff²` into `audio_squares`
(a `uint32_t`); on every 16th sample, classify and record the window,
then — unless the lockout deadline is still ahead of `tick_millis` — run
`analyzeBuffer`, which on success arms the lockout to
`tick_millis + CLAP_LOCKOUT_MS` (`uint32_t` arithmetic).  Returns the
detection flag and the updated state. -/
def micRead (s : MicState) (tick_millis reading : Nat) : Bool × MicState :=
  let d := micDiff reading
  let squares := (s.audio_squares + (d * d).toNat) % UINT32_MOD
  let count := (s.sample_count + 1) % 256
  if count = NUM_SAMPLES_PER_THRESHOLD then
    let p := addToBuffer s.level_buffer s.level_buffer_index
      (calculateCurrentLevel squares)
    if lockoutActive s.clap_lockout_millis tick_millis then
      (false, ⟨0, 0, p.2, p.1, s.clap_lockout_millis⟩)
    else if analyzeBuffer p.2 p.1 then
      (true, ⟨0, 0, p.2, p.1, (tick_millis + CLAP_LOCKOUT_MS) % UINT32_MOD⟩)
    else
      (false, ⟨0, 0, p.2, p.1, s.clap_lockout_millis⟩)
  else
    (false, ⟨squares, count, s.level_buffer, s.level_buffer_index,
             s.clap_lockout_millis⟩)

/-- Run `micRead` over a list of `(tick, reading)` inputs, threading the
state and collecting the detection flags. -/
def micReadSeq (s : MicState) : List (Nat × Nat) → List Bool
  | [] => []
  | (t, r) :: rest =>
    let o := micRead s t r
    o.1 :: micReadSeq o.2 rest

/-! ## Configuration: update, validation and debounced persistence -/

/-- `MAX_BRIGHT` from main.c.  The source defines it twice (64, then 191);
the later definition is the one in effect. -/
def MAX_BRIGHT : Nat := 191

/-- Modelled from the spec: `MAX_HUE` is referenced by `readConfig` in
main.c but defined nowhere under src/; the spec gives the hue range
0..=191, so `MAX_HUE` is 191. -/
def MAX_HUE : Nat := 191

/-- `CONFIG_WAIT_MS` from main.c. -/
def CONFIG_WAIT_MS : Nat := 500

/-- The validation of `readConfig` in main.c, applied to the raw
persisted bytes: a brightness above `MAX_BRIGHT` becomes 8, a hue above
`MAX_HUE` becomes 0.  Returns the validated (brightness, hue). -/
def readConfig (raw_brightness raw_hue : Nat) : Nat × Nat :=
  (if raw_brightness > MAX_BRIGHT then 8 else raw_brightness,
   if raw_hue > MAX_HUE then 0 else raw_hue)

/-- `updateBrightness` from main.c: decrement when `in == -1` and
`brightness >= 1`; increment when `in == 1` and `brightness < MAX_BRIGHT`. -/
def updateBrightness (inp : Int) (brightness : Nat) : Nat :=
  let b1 := if inp = -1 ∧ 1 ≤ brightness then brightness - 1 else brightness
  if inp = 1 ∧ b1 < MAX_BRIGHT then b1 + 1 else b1

/-- `updateHue` from main.c: return unchanged on `in == 0`; otherwise add
`in` to the `uint8_t` hue (wrapping modulo 256), then map 255 back to 191
and 192 back to 0. -/
def updateHue (inp : Int) (hue : Nat) : Nat :=
  if inp = 0 then hue
  else
    let h2 := (((hue : Int) + inp) % 256).toNat
    if h2 = 255 then 191 else if h2 = 192 then 0 else h2

/-- The persistence flags: `config_written` and the time of the last
change, `config_change_millis`. -/
structure ConfigState where
  config_written : Bool
  config_change_millis : Nat
deriving DecidableEq, Repr

/-- `configChanged` from main.c: record the change time and mark the
config as not yet written. -/
def configChanged (tick_millis : Nat) : ConfigState :=
  ⟨false, tick_millis⟩

/-- The readiness test of `maybeWriteConfig` in main.c:
`tick_millis > config_change_millis + CONFIG_WAIT_MS` (`uint32_t`
addition). -/
def flushDue (config_change_millis tick_millis : Nat) : Bool :=
  decide (tick_millis > (config_change_millis + CONFIG_WAIT_MS) % UINT32_MOD)

/-- `maybeWriteConfig` from main.c: when the config is unwritten and the
readiness test passes, write the EEPROM block and set `config_written`.
Returns whether a write was issued, and the updated flags. -/
def maybeWriteConfig (cs : ConfigState) (tick_millis : Nat) : Bool × ConfigState :=
  if !cs.config_written && flushDue cs.config_change_millis tick_millis then
    (true, ⟨true, cs.config_change_millis⟩)
  else
    (false, cs)

/-- The wrap-safe elapsed test mandated by the spec: compare
`(now - reference) < threshold` in unsigned 32-bit modular arithmetic;
`true` means the duration has not yet elapsed. -/
def wrapSafeNotYetElapsed (now reference threshold : Nat) : Bool :=
  decide ((now + UINT32_MOD - reference % UINT32_MOD) % UINT32_MOD < threshold)

/-! ## Color computation (maybeUpdateLeds in main.c) -/

/-- The value computation of `maybeUpdateLeds` in main.c:
`v = brightness * brightness / 16`, clamped to at most 255 and at least 1. -/
def hsvV (brightness : Nat) : Nat :=
  let v := brightness * brightness / 16
  let v2 := min v 255
  max v2 1

/-- The color computation of `maybeUpdateLeds` in main.c: when the lamp
is off, black; otherwise the HSL-style hexagon construction with `v` from
`hsvV`, chroma `c = 255 - abs(2*v - 255)`, `hue_region = hue >> 5`,
`hue_val = hue & 0x1f`, `xt = 8 * (hue_region odd ? hue_val : 32 - hue_val)`,
`x = (c * (256 - xt)) >> 8`, the per-region (r, g, b) switch, the offset
`m = v - c/2` (`uint16_t` subtraction, modelled with its explicit modulus),
and each channel clamped to 255.  Returns the (r, g, b) triple handed to
`sendLeds`.  This is the on-branch; `hsvToRgb` below adds the off case. -/
def hsvToRgbOn (brightness hue : Nat) : Nat × Nat × Nat :=
  let v := hsvV brightness
  let c := 255 - (2 * (v : Int) - 255).natAbs
  let hue_region := hue / 32
  let hue_val := hue % 32
  let xt := 8 * (if hue_region % 2 = 1 then hue_val else 32 - hue_val)
  let x := c * (256 - xt) / 256
  let rgb : Nat × Nat × Nat :=
    if hue_region = 0 then (c, x, 0)
    else if hue_region = 1 then (x, c, 0)
    else if hue_region = 2 then (0, c, x)
    else if hue_region = 3 then (0, x, c)
    else if hue_region = 4 then (x, 0, c)
    else (c, 0, x)
  let m := (v + 65536 - c / 2) % 65536
  (min (rgb.1 + m) 255, min (rgb.2.1 + m) 255, min (rgb.2.2 + m) 255)

/-- The full color computation of `maybeUpdateLeds`: black when the lamp
is off, the hexagon construction otherwise. -/
def hsvToRgb (lampOn : Bool) (brightness hue : Nat) : Nat × Nat × Nat :=
  if lampOn then hsvToRgbOn brightness hue else (0, 0, 0)

/-- The color computation as the spec's reference definition states it:
`v = clamp(brightness² / 16, 1, 255)`, `c = 255 - abs(2v - 255)`,
`region = hue >> 5`, `val = hue & 31`,
`xt = 8 * (val if region odd else 32 - val)`, `x = (c * (256 - xt)) >> 8`,
the region assignment 0 to (c,x,0), 1 to (x,c,0), 2 to (0,c,x),
3 to (0,x,c), 4 to (x,0,c), 5 to (c,0,x), offset `m = v - c/2`, and each
final channel `min(channel + m, 255)`.  This is the on-branch;
`spec_hsvToRgb` below adds the off case, (0,0,0). -/
def spec_hsvToRgbOn (brightness hue : Nat) : Nat × Nat × Nat :=
  let v := min (max (brightness * brightness / 16) 1) 255
  let c := 255 - (2 * (v : Int) - 255).natAbs
  let region := hue / 32
  let val := hue % 32
  let xt := 8 * (if region % 2 = 1 then val else 32 - val)
  let x := c * (256 - xt) / 256
  let rgb : Nat × Nat × Nat :=
    if region = 0 then (c, x, 0)
    else if region = 1 then (x, c, 0)
    else if region = 2 then (0, c, x)
    else if region = 3 then (0, x, c)
    else if region = 4 then (x, 0, c)
    else (c, 0, x)
  let m := v - c / 2
  (min (rgb.1 + m) 255, min (rgb.2.1 + m) 255, min (rgb.2.2 + m) 255)

/-- The spec's full reference color definition: if not on, (0,0,0);
otherwise the hexagon construction. -/
def spec_hsvToRgb (lampOn : Bool) (brightness hue : Nat) : Nat × Nat × Nat :=
  if !lampOn then (0, 0, 0) else spec_hsvToRgbOn brightness hue

/-! ## The LED frame encoder (sendByte and sendLeds in main.c) -/

/-- One observable event of the LED transmission: masking or restoring
interrupts, or one bit pulse with its high and low phase durations in
CPU cycles. -/
inductive LedEvent where
  | irqOff
  | irqOn
  | pulse (highCycles lowCycles : Nat)
deriving DecidableEq, Repr

/-- The bit loop of `sendByte` in main.c: eight iterations testing
`v & 0x80`; a set bit is a 13-cycle-high, 8-cycle-low pulse, a clear bit
a 6-cycle-high, 15-cycle-low pulse; then `v <<= 1` on the `uint8_t`. -/
def sendByteLoop (v : Nat) : Nat → List LedEvent
  | 0 => []
  | n + 1 =>
    (if 128 ≤ v then LedEvent.pulse 13 8 else LedEvent.pulse 6 15)
      :: sendByteLoop (v * 2 % 256) n

/-- `sendByte` from main.c: transmit the eight bits of `v`. -/
def sendByte (v : Nat) : List LedEvent :=
  sendByteLoop (v % 256) 8

/-- The pixel loop of `sendLeds` in main.c: for each of the 8 pixels,
send the green, blue and red bytes in that order. -/
def sendLedsLoop (g b r : Nat) : Nat → List LedEvent
  | 0 => []
  | n + 1 => sendByte g ++ sendByte b ++ sendByte r ++ sendLedsLoop g b r n

/-- `sendLeds` from main.c: disable interrupts, transmit all 8 pixels,
re-enable interrupts. -/
def sendLeds (r g b : Nat) : List LedEvent :=
  LedEvent.irqOff :: (sendLedsLoop g b r 8 ++ [LedEvent.irqOn])

/-- The spec's bit order for one channel byte: its eight bits,
most significant first. -/
def specChannelBits (v : Nat) : List Bool :=
  (List.range 8).map (fun k => v.testBit (7 - k))

/-- The pulse encoding of one bit (the duty cycles of the target part). -/
def specPulse (bit : Bool) : LedEvent :=
  if bit then LedEvent.pulse 13 8 else LedEvent.pulse 6 15

/-- The spec's serialization of one pixel: 24 bits, most significant bit
first within each byte, in green, blue, red channel order. -/
def specPixelEvents (r g b : Nat) : List LedEvent :=
  (specChannelBits g ++ specChannelBits b ++ specChannelBits r).map specPulse

/-- The spec's whole frame: interrupts masked, the 8 pixels transmitted
back to back, interrupts restored immediately afterward. -/
def specFrame (r g b : Nat) : List LedEvent :=
  LedEvent.irqOff :: ((List.replicate 8 (specPixelEvents r g b)).flatten ++ [LedEvent.irqOn])

/-! ## Concrete buffers and states used by counterexamples and witnesses -/

/-- A level buffer whose backward view from index 47 is: 8 QUIET, one
LOUD, a burst LOUD-MID-MID (newest first), 2 QUIET, one LOUD, one LOUD,
32 QUIET, then silence.  The first burst begins (in scan order) with a
LOUD, but its two oldest entries are MID. -/
def c1CounterBuf : List AudioLevel :=
  List.replicate 32 QUIET ++ [LOUD, LOUD, QUIET, QUIET, MID, MID, LOUD, LOUD]
    ++ List.replicate 88 QUIET

/-- A level buffer one push away from a full double-clap pattern: after a
QUIET window is pushed (making index 47 the newest entry), the backward
view is 8 QUIET, LOUD, LOUD, 2 QUIET, LOUD, LOUD, 32 QUIET, silence.
Slot 47 still holds a stale MID that the push overwrites. -/
def micPreBuf : List AudioLevel :=
  List.replicate 34 QUIET ++ [LOUD, LOUD, QUIET, QUIET, LOUD, LOUD]
    ++ List.replicate 7 QUIET ++ [MID] ++ List.replicate 80 QUIET

/-- A microphone state one quiet sample away from detecting the pattern
in `micPreBuf`: 15 samples accumulated, no lockout armed. -/
def micState0 : MicState :=
  ⟨0, 15, micPreBuf, 46, 0⟩

/-! ## Index arithmetic lemmas for the circular buffer -/

theorem bufferIndexSubtract_eq (i a : Nat) (h : i < 128) (h2 : a ≤ 128) :
    bufferIndexSubtract i a = (i + 128 - a) % 128 := by
  simp only [bufferIndexSubtract, LEVEL_BUFFER_LEN]
  split <;> omega

theorem bufferIndexSubtract_lt (i a : Nat) (h : i < 128) :
    bufferIndexSubtract i a < 128 := by
  simp only [bufferIndexSubtract, LEVEL_BUFFER_LEN]
  split <;> omega

theorem bufferIndexAdd_eq (i a : Nat) (h : i < 128) (h2 : a ≤ 128) :
    bufferIndexAdd i a = (i + a) % 128 := by
  simp only [bufferIndexAdd, LEVEL_BUFFER_LEN]
  split <;> omega

theorem bufferIndexSubtract_succ (idx p : Nat) (h : idx < 128) :
    bufferIndexSubtract (bufferIndexSubtract idx (p % 128)) 1
      = bufferIndexSubtract idx ((p + 1) % 128) := by
  rw [bufferIndexSubtract_eq idx (p % 128) h (Nat.le_of_lt (Nat.mod_lt _ (by omega))),
      bufferIndexSubtract_eq _ 1 (by omega) (by omega),
      bufferIndexSubtract_eq idx ((p + 1) % 128) h
        (Nat.le_of_lt (Nat.mod_lt _ (by omega)))]
  omega

theorem bufferIndexAdd_sub (idx p a : Nat) (h : idx < 128) (ha : a ≤ p)
    (ha2 : a ≤ 128) :
    bufferIndexAdd (bufferIndexSubtract idx (p % 128)) a
      = bufferIndexSubtract idx ((p - a) % 128) := by
  rw [bufferIndexSubtract_eq idx (p % 128) h (Nat.le_of_lt (Nat.mod_lt _ (by omega))),
      bufferIndexAdd_eq _ a (by omega) ha2,
      bufferIndexSubtract_eq idx ((p - a) % 128) h
        (Nat.le_of_lt (Nat.mod_lt _ (by omega)))]
  omega

/-! ## The pattern matcher refines the spec's run sequence -/

theorem checkPriorLoop_eq (buf : List AudioLevel) (idx : Nat) (q m l : Bool)
    (h : idx < 128) :
    ∀ (fuel pos : Nat),
      checkPriorLoop buf q m l fuel (bufferIndexSubtract idx (pos % 128))
        = (runCount (backView buf idx) q m l fuel pos,
           bufferIndexSubtract idx
             ((pos + runCount (backView buf idx) q m l fuel pos) % 128))
  | 0, pos => by simp [checkPriorLoop, runCount]
  | fuel + 1, pos => by
    have hview : backView buf idx pos = bufGet buf (bufferIndexSubtract idx (pos % 128)) := rfl
    simp only [checkPriorLoop, runCount, ← hview]
    by_cases hc : levelOk (backView buf idx pos) q m l
    · simp only [hc, if_true, bufferIndexSubtract_succ idx pos h,
        checkPriorLoop_eq buf idx q m l h fuel (pos + 1)]
      have : pos + 1 + runCount (backView buf idx) q m l fuel (pos + 1)
          = pos + (runCount (backView buf idx) q m l fuel (pos + 1) + 1) := by omega
      rw [this]
    · simp [hc]

theorem checkPrior_eq (buf : List AudioLevel) (idx pos min_required max_allowed : Nat)
    (q m l : Bool) (h : idx < 128) :
    checkPrior buf (bufferIndexSubtract idx (pos % 128)) min_required max_allowed q m l
      = (decide (min_required ≤ runCount (backView buf idx) q m l max_allowed pos),
         bufferIndexSubtract idx
           ((pos + runCount (backView buf idx) q m l max_allowed pos) % 128)) := by
  simp only [checkPrior, checkPriorLoop_eq buf idx q m l h max_allowed pos]

theorem checkPrior_eq_zero (buf : List AudioLevel) (idx min_required max_allowed : Nat)
    (q m l : Bool) (h : idx < 128) :
    checkPrior buf idx min_required max_allowed q m l
      = (decide (min_required ≤ runCount (backView buf idx) q m l max_allowed 0),
         bufferIndexSubtract idx
           ((0 + runCount (backView buf idx) q m l max_allowed 0) % 128)) := by
  have h0 : bufferIndexSubtract idx (0 % 128) = idx := by
    simp [bufferIndexSubtract, LEVEL_BUFFER_LEN]
  rw [← h0]
  exact checkPrior_eq buf idx 0 min_required max_allowed q m l h

theorem checkStartedLoud_eq (buf : List AudioLevel) (idx p : Nat)
    (h : idx < 128) (h2 : 2 ≤ p) :
    checkStartedLoud buf (bufferIndexSubtract idx (p % 128))
      = (backView buf idx (p - 1) == LOUD || backView buf idx (p - 2) == LOUD) := by
  unfold checkStartedLoud backView
  rw [bufferIndexAdd_sub idx p 1 h (by omega) (by omega),
      bufferIndexAdd_sub idx p 2 h (by omega) (by omega)]

theorem checkPrior_fst (buf : List AudioLevel) (idx pos min_required max_allowed : Nat)
    (q m l : Bool) (h : idx < 128) :
    (checkPrior buf (bufferIndexSubtract idx (pos % 128)) min_required max_allowed q m l).1
      = decide (min_required ≤ runCount (backView buf idx) q m l max_allowed pos) := by
  rw [checkPrior_eq buf idx pos min_required max_allowed q m l h]

theorem checkPrior_snd (buf : List AudioLevel) (idx pos min_required max_allowed : Nat)
    (q m l : Bool) (h : idx < 128) :
    (checkPrior buf (bufferIndexSubtract idx (pos % 128)) min_required max_allowed q m l).2
      = bufferIndexSubtract idx
          ((pos + runCount (backView buf idx) q m l max_allowed pos) % 128) := by
  rw [checkPrior_eq buf idx pos min_required max_allowed q m l h]

theorem checkPrior_fst_zero (buf : List AudioLevel) (idx min_required max_allowed : Nat)
    (q m l : Bool) (h : idx < 128) :
    (checkPrior buf idx min_required max_allowed q m l).1
      = decide (min_required ≤ runCount (backView buf idx) q m l max_allowed 0) := by
  rw [checkPrior_eq_zero buf idx min_required max_allowed q m l h]

theorem checkPrior_snd_zero (buf : List AudioLevel) (idx min_required max_allowed : Nat)
    (q m l : Bool) (h : idx < 128) :
    (checkPrior buf idx min_required max_allowed q m l).2
      = bufferIndexSubtract idx
          ((0 + runCount (backView buf idx) q m l max_allowed 0) % 128) := by
  rw [checkPrior_eq_zero buf idx min_required max_allowed q m l h]

theorem specExec_nil (sl : (Nat → AudioLevel) → Nat → Nat → Bool)
    (g : Nat → AudioLevel) (pos ls : Nat) : specExec sl g [] pos ls = true := rfl

theorem specExec_run (sl : (Nat → AudioLevel) → Nat → Nat → Bool)
    (g : Nat → AudioLevel) (mr ma : Nat) (q m l : Bool) (rest : List RunStep)
    (pos ls : Nat) :
    specExec sl g (RunStep.run mr ma q m l :: rest) pos ls
      = if decide (mr ≤ runCount g q m l ma pos) then
          specExec sl g rest (pos + runCount g q m l ma pos) pos
        else false := rfl

theorem specExec_startedLoud (sl : (Nat → AudioLevel) → Nat → Nat → Bool)
    (g : Nat → AudioLevel) (rest : List RunStep) (pos ls : Nat) :
    specExec sl g (RunStep.startedLoud :: rest) pos ls
      = if sl g ls pos then specExec sl g rest pos ls else false := rfl

section StageEquivalence

variable (buf : List AudioLevel) (idx : Nat)

theorem stage13_eq (h : idx < 128) (pos ls : Nat) :
    analyzeStage13 buf (bufferIndexSubtract idx (pos % 128))
      = specExec startedLoudLastScanned (backView buf idx)
          [RunStep.run 32 32 true false false] pos ls := by
  rw [analyzeStage13, specExec_run,
    checkPrior_fst buf idx pos 32 32 true false false h]
  cases hd : decide (32 ≤ runCount (backView buf idx) true false false 32 pos) <;> rfl

theorem stage12_eq (h : idx < 128) (pos ls : Nat) (hp : 8 ≤ pos) :
    analyzeStage12 buf (bufferIndexSubtract idx (pos % 128))
      = specExec startedLoudLastScanned (backView buf idx)
          [RunStep.startedLoud, RunStep.run 32 32 true false false] pos ls := by
  rw [analyzeStage12, specExec_startedLoud,
    checkStartedLoud_eq buf idx pos h (by omega)]
  rw [show startedLoudLastScanned (backView buf idx) ls pos
      = (backView buf idx (pos - 1) == LOUD || backView buf idx (pos - 2) == LOUD)
      from rfl]
  refine ite_congr rfl (fun hc => ?_) (fun hc => rfl)
  exact stage13_eq buf idx h pos ls

theorem stage11_eq (h : idx < 128) (pos ls : Nat) (hp : 8 ≤ pos) :
    analyzeStage11 buf (bufferIndexSubtract idx (pos % 128))
      = specExec startedLoudLastScanned (backView buf idx)
          [RunStep.run 0 9 false true true, RunStep.startedLoud,
           RunStep.run 32 32 true false false] pos ls := by
  rw [analyzeStage11, specExec_run,
    checkPrior_fst buf idx pos 0 9 false true true h,
    checkPrior_snd buf idx pos 0 9 false true true h]
  refine ite_congr rfl (fun hc => ?_) (fun hc => rfl)
  exact stage12_eq buf idx h
    (pos + runCount (backView buf idx) false true true 9 pos) pos (by omega)

theorem stage10_eq (h : idx < 128) (pos ls : Nat) (hp : 8 ≤ pos) :
    analyzeStage10 buf (bufferIndexSubtract idx (pos % 128))
      = specExec startedLoudLastScanned (backView buf idx)
          [RunStep.run 1 1 false false true, RunStep.run 0 9 false true true,
           RunStep.startedLoud, RunStep.run 32 32 true false false] pos ls := by
  rw [analyzeStage10, specExec_run,
    checkPrior_fst buf idx pos 1 1 false false true h,
    checkPrior_snd buf idx pos 1 1 false false true h]
  refine ite_congr rfl (fun hc => ?_) (fun hc => rfl)
  exact stage11_eq buf idx h
    (pos + runCount (backView buf idx) false false true 1 pos) pos (by omega)

theorem stage9_eq (h : idx < 128) (pos ls : Nat) (hp : 8 ≤ pos) :
    analyzeStage9 buf (bufferIndexSubtract idx (pos % 128))
      = specExec startedLoudLastScanned (backView buf idx)
          [RunStep.run 0 5 true true false, RunStep.run 1 1 false false true,
           RunStep.run 0 9 false true true, RunStep.startedLoud,
           RunStep.run 32 32 true false false] pos ls := by
  rw [analyzeStage9, specExec_run,
    checkPrior_fst buf idx pos 0 5 true true false h,
    checkPrior_snd buf idx pos 0 5 true true false h]
  refine ite_congr rfl (fun hc => ?_) (fun hc => rfl)
  exact stage10_eq buf idx h
    (pos + runCount (backView buf idx) true true false 5 pos) pos (by omega)

theorem stage8_eq (h : idx < 128) (pos ls : Nat) (hp : 8 ≤ pos) :
    analyzeStage8 buf (bufferIndexSubtract idx (pos % 128))
      = specExec startedLoudLastScanned (backView buf idx)
          [RunStep.run 0 1 false true false, RunStep.run 0 5 true true false,
           RunStep.run 1 1 false false true, RunStep.run 0 9 false true true,
           RunStep.startedLoud, RunStep.run 32 32 true false false] pos ls := by
  rw [analyzeStage8, specExec_run,
    checkPrior_fst buf idx pos 0 1 false true false h,
    checkPrior_snd buf idx pos 0 1 false true false h]
  refine ite_congr rfl (fun hc => ?_) (fun hc => rfl)
  exact stage9_eq buf idx h
    (pos + runCount (backView buf idx) false true false 1 pos) pos (by omega)

theorem stage7_eq (h : idx < 128) (pos ls : Nat) (hp : 8 ≤ pos) :
    analyzeStage7 buf (bufferIndexSubtract idx (pos % 128))
      = specExec startedLoudLastScanned (backView buf idx)
          [RunStep.run 2 50 true false false, RunStep.run 0 1 false true false,
           RunStep.run 0 5 true true false, RunStep.run 1 1 false false true,
           RunStep.run 0 9 false true true, RunStep.startedLoud,
           RunStep.run 32 32 true false false] pos ls := by
  rw [analyzeStage7, specExec_run,
    checkPrior_fst buf idx pos 2 50 true false false h,
    checkPrior_snd buf idx pos 2 50 true false false h]
  refine ite_congr rfl (fun hc => ?_) (fun hc => rfl)
  exact stage8_eq buf idx h
    (pos + runCount (backView buf idx) true false false 50 pos) pos (by omega)

theorem stage6_eq (h : idx < 128) (pos ls : Nat) (hp : 8 ≤ pos) :
    analyzeStage6 buf (bufferIndexSubtract idx (pos % 128))
      = specExec startedLoudLastScanned (backView buf idx)
          [RunStep.startedLoud, RunStep.run 2 50 true false false,
           RunStep.run 0 1 false true false, RunStep.run 0 5 true true false,
           RunStep.run 1 1 false false true, RunStep.run 0 9 false true true,
           RunStep.startedLoud, RunStep.run 32 32 true false false] pos ls := by
  rw [analyzeStage6, specExec_startedLoud,
    checkStartedLoud_eq buf idx pos h (by omega)]
  rw [show startedLoudLastScanned (backView buf idx) ls pos
      = (backView buf idx (pos - 1) == LOUD || backView buf idx (pos - 2) == LOUD)
      from rfl]
  refine ite_congr rfl (fun hc => ?_) (fun hc => rfl)
  exact stage7_eq buf idx h pos ls hp

theorem stage5_eq (h : idx < 128) (pos ls : Nat) (hp : 8 ≤ pos) :
    analyzeStage5 buf (bufferIndexSubtract idx (pos % 128))
      = specExec startedLoudLastScanned (backView buf idx)
          [RunStep.run 0 9 false true true, RunStep.startedLoud,
           RunStep.run 2 50 true false false, RunStep.run 0 1 false true false,
           RunStep.run 0 5 true true false, RunStep.run 1 1 false false true,
           RunStep.run 0 9 false true true, RunStep.startedLoud,
           RunStep.run 32 32 true false false] pos ls := by
  rw [analyzeStage5, specExec_run,
    checkPrior_fst buf idx pos 0 9 false true true h,
    checkPrior_snd buf idx pos 0 9 false true true h]
  refine ite_congr rfl (fun hc => ?_) (fun hc => rfl)
  exact stage6_eq buf idx h
    (pos + runCount (backView buf idx) false true true 9 pos) pos (by omega)

theorem stage4_eq (h : idx < 128) (pos ls : Nat) (hp : 8 ≤ pos) :
    analyzeStage4 buf (bufferIndexSubtract idx (pos % 128))
      = specExec startedLoudLastScanned (backView buf idx)
          [RunStep.run 1 1 false false true, RunStep.run 0 9 false true true,
           RunStep.startedLoud, RunStep.run 2 50 true false false,
           RunStep.run 0 1 false true false, RunStep.run 0 5 true true false,
           RunStep.run 1 1 false false true, RunStep.run 0 9 false true true,
           RunStep.startedLoud, RunStep.run 32 32 true false false] pos ls := by
  rw [analyzeStage4, specExec_run,
    checkPrior_fst buf idx pos 1 1 false false true h,
    checkPrior_snd buf idx pos 1 1 false false true h]
  refine ite_congr rfl (fun hc => ?_) (fun hc => rfl)
  exact stage5_eq buf idx h
    (pos + runCount (backView buf idx) false false true 1 pos) pos (by omega)

theorem stage3_eq (h : idx < 128) (pos ls : Nat) (hp : 8 ≤ pos) :
    analyzeStage3 buf (bufferIndexSubtract idx (pos % 128))
      = specExec startedLoudLastScanned (backView buf idx)
          [RunStep.run 0 5 true true false, RunStep.run 1 1 false false true,
           RunStep.run 0 9 false true true, RunStep.startedLoud,
           RunStep.run 2 50 true false false, RunStep.run 0 1 false true false,
           RunStep.run 0 5 true true false, RunStep.run 1 1 false false true,
           RunStep.run 0 9 false true true, RunStep.startedLoud,
           RunStep.run 32 32 true false false] pos ls := by
  rw [analyzeStage3, specExec_run,
    checkPrior_fst buf idx pos 0 5 true true false h,
    checkPrior_snd buf idx pos 0 5 true true false h]
  refine ite_congr rfl (fun hc => ?_) (fun hc => rfl)
  exact stage4_eq buf idx h
    (pos + runCount (backView buf idx) true true false 5 pos) pos (by omega)

theorem stage2_eq (h : idx < 128) (pos ls : Nat) (hp : 8 ≤ pos) :
    analyzeStage2 buf (bufferIndexSubtract idx (pos % 128))
      = specExec startedLoudLastScanned (backView buf idx)
          [RunStep.run 0 1 false true false, RunStep.run 0 5 true true false,
           RunStep.run 1 1 false false true, RunStep.run 0 9 false true true,
           RunStep.startedLoud, RunStep.run 2 50 true false false,
           RunStep.run 0 1 false true false, RunStep.run 0 5 true true false,
           RunStep.run 1 1 false false true, RunStep.run 0 9 false true true,
           RunStep.startedLoud, RunStep.run 32 32 true false false] pos ls := by
  rw [analyzeStage2, specExec_run,
    checkPrior_fst buf idx pos 0 1 false true false h,
    checkPrior_snd buf idx pos 0 1 false true false h]
  refine ite_congr rfl (fun hc => ?_) (fun hc => rfl)
  exact stage3_eq buf idx h
    (pos + runCount (backView buf idx) false true false 1 pos) pos (by omega)

/-- Claim C1 (amended): the double-clap pattern matcher `analyzeBuffer`
returns true if and only if, walking the level buffer backward from the
newest entry, the entries match the run sequence of the specification —
with the started-loud constraint amended to read: the entry one or two
positions past the burst run's final scan position is LOUD (that is, the
last or second-to-last entry the run scanned; when the run matched fewer
than two entries, the preceding lone LOUD entry occupies those
positions and the constraint holds trivially).  Any failed run aborts
the whole match. -/
theorem analyzeBuffer_eq_amended (h : idx < 128) :
    analyzeBuffer buf idx = specMatchAmended (backView buf idx) := by
  rw [analyzeBuffer, specMatchAmended, specMatchWith, specSteps, specExec_run,
    checkPrior_fst_zero buf idx 8 8 true false false h,
    checkPrior_snd_zero buf idx 8 8 true false false h]
  refine ite_congr rfl (fun hc => ?_) (fun hc => rfl)
  have h8 : 8 ≤ runCount (backView buf idx) true false false 8 0 :=
    of_decide_eq_true hc
  exact stage2_eq buf idx h
    (0 + runCount (backView buf idx) true false false 8 0) 0 (by omega)

end StageEquivalence

/-- Claim C1 (counterexample): with the started-loud constraint read as
the claim states it — the 1st or 2nd entry scanned in the burst run is
LOUD — the equivalence fails: on `c1CounterBuf` (first burst scans
LOUD, MID, MID, so its 1st scanned entry is LOUD) the claim's matcher
accepts, but `analyzeBuffer` rejects because the two entries past the
run's end are both MID. -/
theorem c1_counterexample :
    analyzeBuffer c1CounterBuf 47 = false
    ∧ specMatchClaim (backView c1CounterBuf 47) = true := by
  refine ⟨by decide, by decide⟩

/-- Witness for C1: the amended equivalence evaluated at a concrete
buffer and index. -/
theorem c1_witness :
    47 < 128
    ∧ analyzeBuffer c1CounterBuf 47 = specMatchAmended (backView c1CounterBuf 47) :=
  ⟨by decide, analyzeBuffer_eq_amended c1CounterBuf 47 (by decide)⟩

/-! ## C2: the detection lockout -/

theorem micRead_locked_false (s : MicState) (t r : Nat)
    (h : t < s.clap_lockout_millis) : (micRead s t r).1 = false := by
  have hl : lockoutActive s.clap_lockout_millis t = true := decide_eq_true h
  simp only [micRead, hl]
  split <;> rfl

theorem micRead_false_lockout (s : MicState) (t r : Nat)
    (h : (micRead s t r).1 = false) :
    (micRead s t r).2.clap_lockout_millis = s.clap_lockout_millis := by
  revert h
  simp only [micRead]
  split
  · split
    · intro _; rfl
    · split
      · intro hc; exact absurd hc (by simp)
      · intro _; rfl
  · intro _; rfl

theorem micRead_true_lockout (s : MicState) (t r : Nat)
    (h : (micRead s t r).1 = true) :
    (micRead s t r).2.clap_lockout_millis = (t + CLAP_LOCKOUT_MS) % UINT32_MOD := by
  revert h
  simp only [micRead]
  split
  · split
    · intro hc; exact absurd hc (by simp)
    · split
      · intro _; rfl
      · intro hc; exact absurd hc (by simp)
  · intro hc; exact absurd hc (by simp)

/-- Claim C2 (amended): once `micRead` reports a detection at tick `T`,
and provided the 32-bit tick counter does not wrap during the lockout
window (`T + 2000 < 2^32`), every subsequent call whose tick is strictly
before `T + 2000` returns no clap, whatever the readings: the detection
armed the lockout to `T + 2000`, ticks below the deadline skip the
matcher, and calls that return no clap leave the deadline unchanged. -/
theorem c2_lockout_after_detection (s : MicState) (T reading : Nat)
    (inputs : List (Nat × Nat))
    (hdet : (micRead s T reading).1 = true)
    (hwrap : T + CLAP_LOCKOUT_MS < UINT32_MOD)
    (hin : ∀ p ∈ inputs, p.1 < T + CLAP_LOCKOUT_MS) :
    ∀ o ∈ micReadSeq (micRead s T reading).2 inputs, o = false := by
  have hL : (micRead s T reading).2.clap_lockout_millis = T + CLAP_LOCKOUT_MS := by
    rw [micRead_true_lockout s T reading hdet]
    exact Nat.mod_eq_of_lt hwrap
  have main : ∀ (inputs2 : List (Nat × Nat)) (st : MicState),
      st.clap_lockout_millis = T + CLAP_LOCKOUT_MS →
      (∀ p ∈ inputs2, p.1 < T + CLAP_LOCKOUT_MS) →
      ∀ o ∈ micReadSeq st inputs2, o = false := by
    intro inputs2
    induction inputs2 with
    | nil => intro st _ _ o ho; simp [micReadSeq] at ho
    | cons hd tl ih =>
      intro st hst hins o ho
      obtain ⟨t, r⟩ := hd
      have hf : (micRead st t r).1 = false :=
        micRead_locked_false st t r
          (by rw [hst]; exact hins (t, r) (List.mem_cons_self _ _))
      simp only [micReadSeq] at ho
      rcases List.mem_cons.mp ho with hh | hh
      · rw [hh]; exact hf
      · exact ih ((micRead st t r).2)
          (by rw [micRead_false_lockout st t r hf]; exact hst)
          (fun p hp => hins p (List.mem_cons_of_mem _ hp)) o hh
  exact main inputs (micRead s T reading).2 hL hin

set_option maxRecDepth 8192 in
/-- Claim C2 (counterexample): when the lockout deadline wraps past
2^32, the claim as stated fails.  A detection at tick `T = 2^32 - 1984`
arms the lockout to `(T + 2000) mod 2^32 = 16`; the very next window
boundary, 16 quiet samples later at tick `T + 16` (strictly before
`T + 2000`), passes the `lockout > now` test and reports a second
detection. -/
theorem c2_counterexample :
    (micRead micState0 4294965312 369).1 = true
    ∧ micReadSeq (micRead micState0 4294965312 369).2
        ((List.range 16).map (fun k => (4294965313 + k, 369)))
      = List.replicate 15 false ++ [true]
    ∧ 4294965313 + 15 < 4294965312 + CLAP_LOCKOUT_MS := by
  refine ⟨by decide, by decide, by decide⟩

set_option maxRecDepth 8192 in
/-- Witness for C2: a detection at tick 1000 followed by one call at
tick 1001, which reports no clap. -/
theorem c2_witness :
    (micRead micState0 1000 369).1 = true
    ∧ ∀ o ∈ micReadSeq (micRead micState0 1000 369).2 [(1001, 369)], o = false :=
  ⟨by decide,
   c2_lockout_after_detection micState0 1000 369 [(1001, 369)]
     (by decide) (by decide) (by decide)⟩

/-! ## C3: the brightness range -/

/-- Claim C3 (code divergence): `updateBrightness` decrements whenever
`brightness >= 1`, so brightness 1 with step -1 becomes 0, outside the
documented range 1..=191, and `readConfig` keeps a persisted brightness
of 0 instead of restoring the default 8.  The upper clamp at 191 and the
out-of-range reset for values above 191 do hold. -/
theorem c3_brightness_escapes_range :
    updateBrightness (-1) 1 = 0
    ∧ (readConfig 0 0).1 = 0
    ∧ updateBrightness 1 MAX_BRIGHT = MAX_BRIGHT
    ∧ updateBrightness (-1) 0 = 0
    ∧ readConfig 200 200 = (8, 0) := by decide

/-! ## C4 and C5: the color computation -/

theorem hsvToRgbOn_eq_spec (b hu : Nat) : hsvToRgbOn b hu = spec_hsvToRgbOn b hu := by
  simp only [hsvToRgbOn, spec_hsvToRgbOn, hsvV]
  rw [show min (max (b * b / 16) 1) 255 = max (min (b * b / 16) 255) 1 from by omega]
  generalize hV : max (min (b * b / 16) 255) 1 = V
  have h1 : V ≤ 255 := by rw [← hV]; omega
  have h2 : (255 - (2 * (V : Int) - 255).natAbs) / 2 ≤ V := by omega
  generalize hC : 255 - (2 * (V : Int) - 255).natAbs = C
  rw [hC] at h2
  have h3 : (V + 65536 - C / 2) % 65536 = V - C / 2 := by omega
  rw [h3]

/-- Claim C4: for every brightness in 1..=191 and hue in 0..=191, the
code's color computation equals the spec's reference definition: black
when off, and the hexagon construction with each final channel in
0..255 when on. -/
theorem c4_color_matches_spec :
    ∀ b < 192, ∀ hu < 192, 1 ≤ b →
      hsvToRgb true b hu = spec_hsvToRgb true b hu
      ∧ hsvToRgb false b hu = (0, 0, 0)
      ∧ (hsvToRgb true b hu).1 ≤ 255
      ∧ (hsvToRgb true b hu).2.1 ≤ 255
      ∧ (hsvToRgb true b hu).2.2 ≤ 255 := by
  intro b _ hu _ _
  have hon : hsvToRgb true b hu = hsvToRgbOn b hu := rfl
  have hchan : (hsvToRgbOn b hu).1 ≤ 255
      ∧ (hsvToRgbOn b hu).2.1 ≤ 255 ∧ (hsvToRgbOn b hu).2.2 ≤ 255 := by
    simp only [hsvToRgbOn]
    exact ⟨Nat.min_le_right _ _, Nat.min_le_right _ _, Nat.min_le_right _ _⟩
  exact ⟨by rw [hon]; exact hsvToRgbOn_eq_spec b hu, rfl,
    hon ▸ hchan.1, hon ▸ hchan.2.1, hon ▸ hchan.2.2⟩

/-- Witness for C4: the equality evaluated at brightness 8, hue 0. -/
theorem c4_witness :
    8 < 192 ∧ 0 < 192 ∧ 1 ≤ 8
    ∧ (hsvToRgb true 8 0 = spec_hsvToRgb true 8 0
       ∧ hsvToRgb false 8 0 = (0, 0, 0)
       ∧ (hsvToRgb true 8 0).1 ≤ 255
       ∧ (hsvToRgb true 8 0).2.1 ≤ 255
       ∧ (hsvToRgb true 8 0).2.2 ≤ 255) :=
  ⟨by decide, by decide, by decide,
   c4_color_matches_spec 8 (by decide) 0 (by decide) (by decide)⟩

/-- Claim C5 (counterexample): at maximum brightness 191 and hue 0 the
output is not red-dominant — the red channel does not strictly exceed
green and blue. -/
theorem c5_counterexample :
    ¬((hsvToRgb true 191 0).2.1 < (hsvToRgb true 191 0).1
      ∧ (hsvToRgb true 191 0).2.2 < (hsvToRgb true 191 0).1) := by decide

/-- Claim C5 (amended): `hsvToRgb true 191 0` saturates `v` at 255,
which collapses the chroma to 0 and lifts every channel to 255: the
output is pure white (255, 255, 255), with red equal to — not strictly
above — green and blue. -/
theorem c5_saturated_white :
    hsvV 191 = 255 ∧ hsvToRgb true 191 0 = (255, 255, 255) := by decide

/-! ## C6: the persistence debounce -/

/-- Claim C6 (counterexample): at `now = lastChange + 500` exactly, the
claim says the config is flushed (`now ≥ lastChange + 500` with the
dirty flag set), but `maybeWriteConfig` uses a strict comparison and
does nothing — no write and no state change. -/
theorem c6_counterexample :
    (maybeWriteConfig ⟨false, 0⟩ 500).1 = false
    ∧ (maybeWriteConfig ⟨false, 0⟩ 500).2 = ⟨false, 0⟩
    ∧ 0 + CONFIG_WAIT_MS ≤ 500 := by decide

/-- Claim C6 (amended): `maybeWriteConfig` writes and clears the dirty
flag exactly when the flag is set and `now > lastChangeTime + 500`
(strictly); a change at time `T` is never flushed at or before
`T + 500`, a second change at `T + 100` is not flushed at or before
`T + 600`, and when the condition does not hold nothing changes.
(Stated below the 32-bit wrap of the deadline arithmetic.) -/
theorem c6_flush_policy (w : Bool) (T now : Nat)
    (hT : T + 100 + CONFIG_WAIT_MS < UINT32_MOD) :
    ((maybeWriteConfig ⟨w, T⟩ now).1 = (!w && decide (T + CONFIG_WAIT_MS < now)))
    ∧ ((maybeWriteConfig ⟨w, T⟩ now).1 = true →
        (maybeWriteConfig ⟨w, T⟩ now).2 = ⟨true, T⟩)
    ∧ ((maybeWriteConfig ⟨w, T⟩ now).1 = false →
        (maybeWriteConfig ⟨w, T⟩ now).2 = ⟨w, T⟩)
    ∧ (now ≤ T + CONFIG_WAIT_MS → (maybeWriteConfig ⟨w, T⟩ now).1 = false)
    ∧ (∀ now2 ≤ T + 100 + CONFIG_WAIT_MS,
        (maybeWriteConfig (configChanged (T + 100)) now2).1 = false) := by
  have hflush : flushDue T now = decide (T + CONFIG_WAIT_MS < now) := by
    simp only [flushDue]
    rw [Nat.mod_eq_of_lt (by omega)]
  refine ⟨?_, ?_, ?_, ?_, ?_⟩
  · cases hb : (!w && decide (T + CONFIG_WAIT_MS < now)) <;>
      simp [maybeWriteConfig, hflush, hb]
  · intro h1
    by_cases hb : (!w && flushDue T now) = true
    · simp [maybeWriteConfig, hb]
    · simp only [maybeWriteConfig] at h1
      rw [if_neg hb] at h1
      exact absurd h1 (by simp)
  · intro h1
    by_cases hb : (!w && flushDue T now) = true
    · simp only [maybeWriteConfig] at h1
      rw [if_pos hb] at h1
      exact absurd h1 (by simp)
    · simp [maybeWriteConfig, hb]
  · intro hn
    have : flushDue T now = false := by
      rw [hflush]; simp; omega
    simp [maybeWriteConfig, this]
  · intro now2 hn2
    have : flushDue (T + 100) now2 = false := by
      simp only [flushDue]
      rw [Nat.mod_eq_of_lt (by omega)]
      simp; omega
    simp [maybeWriteConfig, configChanged, this]

/-- Witness for C6: the flush decision at change time 0 and tick 501. -/
theorem c6_witness :
    0 + 100 + CONFIG_WAIT_MS < UINT32_MOD
    ∧ ((maybeWriteConfig ⟨false, 0⟩ 501).1
        = (!false && decide (0 + CONFIG_WAIT_MS < 501))) :=
  ⟨by decide, (c6_flush_policy false 0 501 (by decide)).1⟩

/-! ## C7: wrap safety of the duration comparisons -/

/-- Claim C7 (divergence): neither duration comparison is wrap-safe.
With the counter about to wrap, the config-flush test
(`now > change + 500` after `uint32` addition) reports "elapsed" only
50 ms after the change, and the clap-lockout test (`lockout > now`)
reports the lockout expired only 1000 ms after a detection armed it for
2000 ms — in both cases the spec's modular-subtraction comparison
`(now - reference) < threshold` says the duration has not yet elapsed. -/
theorem c7_wrap_divergence :
    (maybeWriteConfig ⟨false, UINT32_MOD - 100⟩ (UINT32_MOD - 50)).1 = true
    ∧ flushDue (UINT32_MOD - 100) (UINT32_MOD - 50) = true
    ∧ wrapSafeNotYetElapsed (UINT32_MOD - 50) (UINT32_MOD - 100) CONFIG_WAIT_MS = true
    ∧ lockoutActive ((UINT32_MOD - 1000 + CLAP_LOCKOUT_MS) % UINT32_MOD)
        (UINT32_MOD - 900) = false
    ∧ wrapSafeNotYetElapsed (UINT32_MOD - 900) (UINT32_MOD - 1000) CLAP_LOCKOUT_MS
        = true := by
  decide

/-! ## C8: hue wraparound closure -/

set_option maxRecDepth 8192 in
theorem updateHue_succ_eq :
    ∀ h < 192, updateHue 1 h = if h = 191 then 0 else h + 1 := by
  decide

theorem updateHue_iter_eq (k : Nat) :
    ∀ h < 192, (updateHue 1)^[k] h = (h + k) % 192 := by
  induction k with
  | zero => intro h hh; simp [Nat.mod_eq_of_lt hh]
  | succ k ih =>
    intro h hh
    rw [Function.iterate_succ_apply', ih h hh,
      updateHue_succ_eq ((h + k) % 192) (Nat.mod_lt _ (by omega))]
    split <;> omega

set_option maxRecDepth 8192 in
/-- Claim C8: for every hue in 0..=191, 192 increments return the hue to
its original value, each single step (up or down) stays within 0..=191,
an increment from 191 wraps to 0 and a decrement from 0 wraps to 191. -/
theorem c8_hue_wraparound :
    (∀ h < 192, (updateHue 1)^[192] h = h
      ∧ updateHue 1 h ≤ 191 ∧ updateHue (-1) h ≤ 191)
    ∧ updateHue 1 191 = 0 ∧ updateHue (-1) 0 = 191 := by
  refine ⟨fun h hh => ⟨?_, ?_, ?_⟩, by decide, by decide⟩
  · rw [updateHue_iter_eq 192 h hh]; omega
  · rw [updateHue_succ_eq h hh]; split <;> omega
  · revert hh; revert h; decide

/-- Witness for C8: the closure evaluated at hue 5. -/
theorem c8_witness :
    5 < 192
    ∧ ((updateHue 1)^[192] 5 = 5 ∧ updateHue 1 5 ≤ 191 ∧ updateHue (-1) 5 ≤ 191) :=
  ⟨by decide, c8_hue_wraparound.1 5 (by decide)⟩

/-! ## C9: the LED frame -/

set_option maxRecDepth 8192 in
theorem sendByte_eq_bits : ∀ v < 256, sendByte v = (specChannelBits v).map specPulse := by
  decide

theorem sendLedsLoop_eq (g b r : Nat) (hg : g < 256) (hb : b < 256) (hr : r < 256) :
    ∀ n, sendLedsLoop g b r n = (List.replicate n (specPixelEvents r g b)).flatten := by
  intro n
  induction n with
  | zero => rfl
  | succ n ih =>
    rw [sendLedsLoop, List.replicate_succ, List.flatten_cons, ih,
      sendByte_eq_bits g hg, sendByte_eq_bits b hb, sendByte_eq_bits r hr]
    simp [specPixelEvents, List.map_append, List.append_assoc]

/-- Claim C9: for every RGB triplet of bytes, the frame encoder
transmits exactly 24 bit pulses per pixel, most significant bit first
within each byte, in green, blue, red channel order; the whole frame is
bracketed by one interrupt-disable at the start and one
interrupt-enable immediately after it, with no interrupt event inside
the transmission. -/
theorem c9_led_frame (r g b : Nat) (hr : r < 256) (hg : g < 256) (hb : b < 256) :
    sendLeds r g b = specFrame r g b
    ∧ (specPixelEvents r g b).length = 24
    ∧ (∀ e ∈ specPixelEvents r g b, e ≠ LedEvent.irqOff ∧ e ≠ LedEvent.irqOn) := by
  refine ⟨?_, ?_, ?_⟩
  · rw [sendLeds, specFrame, sendLedsLoop_eq g b r hg hb hr 8]
  · simp [specPixelEvents, specChannelBits]
  · intro e he
    simp only [specPixelEvents, List.mem_map] at he
    obtain ⟨bit, _, hbit⟩ := he
    rw [← hbit]
    cases bit <;> simp [specPulse]

/-- Witness for C9: the frame for pure red (255, 0, 0). -/
theorem c9_witness :
    255 < 256 ∧ 0 < 256
    ∧ (sendLeds 255 0 0 = specFrame 255 0 0
       ∧ (specPixelEvents 255 0 0).length = 24
       ∧ (∀ e ∈ specPixelEvents 255 0 0,
            e ≠ LedEvent.irqOff ∧ e ≠ LedEvent.irqOn)) :=
  ⟨by decide, by decide, c9_led_frame 255 0 0 (by decide) (by decide) (by decide)⟩

/-! ## C10: detections only on window boundaries -/

/-- Claim C10: on any tick where the sample count has not just reached
16, `micRead` returns no clap and leaves the lockout, the level buffer
and its index untouched, regardless of the buffer contents and of the
lockout value. -/
theorem c10_window_boundary (s : MicState) (t r : Nat)
    (h : (s.sample_count + 1) % 256 ≠ NUM_SAMPLES_PER_THRESHOLD) :
    (micRead s t r).1 = false
    ∧ (micRead s t r).2.clap_lockout_millis = s.clap_lockout_millis
    ∧ (micRead s t r).2.level_buffer = s.level_buffer
    ∧ (micRead s t r).2.level_buffer_index = s.level_buffer_index := by
  simp only [micRead]
  rw [if_neg h]
  exact ⟨rfl, rfl, rfl, rfl⟩

/-- Witness for C10: a mid-window state (sample count 0). -/
theorem c10_witness :
    ((MicState.mk 0 0 [] 0 7).sample_count + 1) % 256 ≠ NUM_SAMPLES_PER_THRESHOLD
    ∧ ((micRead ⟨0, 0, [], 0, 7⟩ 5 400).1 = false
       ∧ (micRead ⟨0, 0, [], 0, 7⟩ 5 400).2.clap_lockout_millis
           = (MicState.mk 0 0 [] 0 7).clap_lockout_millis
       ∧ (micRead ⟨0, 0, [], 0, 7⟩ 5 400).2.level_buffer
           = (MicState.mk 0 0 [] 0 7).level_buffer
       ∧ (micRead ⟨0, 0, [], 0, 7⟩ 5 400).2.level_buffer_index
           = (MicState.mk 0 0 [] 0 7).level_buffer_index) :=
  ⟨by decide, c10_window_boundary ⟨0, 0, [], 0, 7⟩ 5 400 (by decide)⟩

end ClapSwitch
